import Mathlib

/-!
Verification of the heuristic content classifier and rendering pipeline of
`src/main.py` (`parse_data`, `get_feed`, `parse_tool_call`,
`parse_text_content`).

Python strings are embedded as `List Char`; Python/JSON values as `PyVal`;
a Python `dict` whose keys are strings as an association list
`List (List Char × PyVal)`.  Operations that can raise a Python exception
are embedded in `Except PyErr`; the texts of exception messages are
modelled (short, distinct, one per exception site), since no claim depends
on the exact message bytes, only on where the message ends up.
-/

set_option maxRecDepth 40000

/-- Single-quote character, used to build the quote-delimited patterns of
`main.py` without writing apostrophes inside string literals. -/
def sqc : Char := '\''

/-- Double-quote character. -/
def dqc : Char := '"'

/-- Embedding of the Python/JSON values that can appear in an uploaded
payload (a `Dict[str, Any]` built from a JSON body or a Mongo document).
Floats are carried as their raw token text: `main.py` performs no float
arithmetic, so only their identity matters. -/
inductive PyVal where
  | str : List Char → PyVal
  | int : Int → PyVal
  | float : List Char → PyVal
  | bool : Bool → PyVal
  | none : PyVal
  | list : List PyVal → PyVal
  | dict : List (List Char × PyVal) → PyVal

/-- Shorthand for a Python string value given by a Lean string literal. -/
def mkStr (s : String) : PyVal := PyVal.str s.data

/-- A raised Python exception, carrying (a model of) `str(e)`. -/
structure PyErr where
  msg : List Char
deriving DecidableEq

/-- Python type name of a value, as it appears in exception messages. -/
def typeName : PyVal → List Char
  | .str _ => "str".data
  | .int _ => "int".data
  | .float _ => "float".data
  | .bool _ => "bool".data
  | .none => "NoneType".data
  | .list _ => "list".data
  | .dict _ => "dict".data

/-- Longest run of characters different from `c` at the head of the list
(the greedy `[^c]*` with no closing delimiter required). -/
def takeWhileNe (c : Char) : List Char → List Char
  | [] => []
  | x :: xs => if x = c then [] else x :: takeWhileNe c xs

/-- Characters strictly before the first occurrence of `c`, or `none` when
`c` does not occur (the greedy `[^c]*` followed by a mandatory `c`). -/
def chopAtDelim (c : Char) : List Char → Option (List Char)
  | [] => Option.none
  | x :: xs => if x = c then Option.some [] else (chopAtDelim c xs).map (x :: ·)

/-- Embedding of `re.search(pat + r·([^q]*)·, s)` with NO closing
delimiter in the pattern (as in `value="([^"]*)`): find the leftmost
occurrence of the literal `pat`, then capture the maximal following run of
characters different from `q`. -/
def searchCapOpen (pat : List Char) (q : Char) : List Char → Option (List Char)
  | [] => if pat.isEmpty then Option.some [] else Option.none
  | s@(_ :: rest) =>
    if pat.isPrefixOf s then Option.some (takeWhileNe q (s.drop pat.length))
    else searchCapOpen pat q rest

/-- Embedding of `re.search(pat + r·([^q]*)q·, s)` WITH a closing
delimiter (as in `id='([^']*)'`): at the leftmost position where the
literal `pat` matches and a closing `q` follows, capture the characters
between.  Positions where `pat` matches but no closing `q` follows are
skipped, exactly as the regex engine advances its start position. -/
def searchCapClosed (pat : List Char) (q : Char) : List Char → Option (List Char)
  | [] => Option.none
  | s@(_ :: rest) =>
    if pat.isPrefixOf s then
      match chopAtDelim q (s.drop pat.length) with
      | Option.some cap => Option.some cap
      | Option.none => searchCapClosed pat q rest
    else searchCapClosed pat q rest

/-- Whitespace characters removed by Python `str.strip()` (ASCII part). -/
def isPySpace (c : Char) : Bool :=
  c = ' ' || c = '\t' || c = '\n' || c = '\x0d' || c = '\x0b' || c = '\x0c'

/-- Embedding of Python `str.strip()`. -/
def pyStrip (s : List Char) : List Char :=
  ((s.dropWhile isPySpace).reverse.dropWhile isPySpace).reverse

/-- Substring test: embedding of Python `key in s` for strings. -/
def containsSub (pat : List Char) : List Char → Bool
  | [] => pat.isEmpty
  | s@(_ :: rest) => pat.isPrefixOf s || containsSub pat rest

/-- Curly-brace characters as escaped literals. -/
def lbrace : Char := '\x7b'

/-- Closing curly brace. -/
def rbrace : Char := '\x7d'

mutual

/-- Embedding of Python `repr` on the embedded values (used by `str` on
containers).  Strings are rendered between single quotes; the alternate
double-quote rule of `repr` for strings containing a quote is not needed
by any claim and is not modelled. -/
def pyRepr : PyVal → List Char
  | .str s => sqc :: (s ++ [sqc])
  | .int n => (toString n).data
  | .float t => t
  | .bool b => if b then "True".data else "False".data
  | .none => "None".data
  | .list l => '[' :: (pyReprList l ++ [']'])
  | .dict d => lbrace :: (pyReprDict d ++ [rbrace])

/-- Comma-separated `repr`s of the elements of a list. -/
def pyReprList : List PyVal → List Char
  | [] => []
  | [v] => pyRepr v
  | v :: rest => pyRepr v ++ ", ".data ++ pyReprList rest

/-- Comma-separated `'key': repr(value)` entries of a dict. -/
def pyReprDict : List (List Char × PyVal) → List Char
  | [] => []
  | [(k, v)] => sqc :: (k ++ [sqc]) ++ ": ".data ++ pyRepr v
  | (k, v) :: rest => sqc :: (k ++ [sqc]) ++ ": ".data ++ pyRepr v ++ ", ".data ++ pyReprDict rest

end

/-- Embedding of Python `str()`: the identity on strings, `repr` on
everything else (f-string interpolation uses this). -/
def pyStr : PyVal → List Char
  | .str s => s
  | v => pyRepr v

/-- Embedding of Python `key in v` for a string `key`: key lookup on a
dict, substring test on a string, membership test on a list, and a
`TypeError` on non-container values. -/
def pyContains (key : List Char) : PyVal → Except PyErr Bool
  | .dict d => .ok (List.lookup key d).isSome
  | .str s => .ok (containsSub key s)
  | .list l => .ok (l.any fun v => match v with | .str s => s == key | _ => false)
  | v => .error ⟨"argument of type ".data ++ sqc :: (typeName v ++ [sqc]) ++ " is not iterable".data⟩

/-- Embedding of Python `v[key]` for a string `key`. -/
def pyIndex (v : PyVal) (key : List Char) : Except PyErr PyVal :=
  match v with
  | .dict d =>
    match List.lookup key d with
    | Option.some x => .ok x
    | Option.none => .error ⟨sqc :: (key ++ [sqc])⟩
  | .str _ => .error ⟨"string indices must be integers".data⟩
  | .list _ => .error ⟨"list indices must be integers or slices, not str".data⟩
  | w => .error ⟨sqc :: (typeName w ++ [sqc]) ++ " object is not subscriptable".data⟩

/-- Requirement of `re.search` that its subject be a string: a `TypeError`
is raised on any other value. -/
def asStr : PyVal → Except PyErr (List Char)
  | .str s => .ok s
  | v => .error ⟨"expected string or bytes-like object, got ".data ++ sqc :: (typeName v ++ [sqc])⟩

/-- Key `"type"` of the dictionaries returned by `parse_data`. -/
def ktype : List Char := "type".data

/-- Key `"timestamp"`. -/
def ktimestamp : List Char := "timestamp".data

/-- Key `"content"`. -/
def kcontent : List Char := "content".data

/-- Key `"category"`. -/
def kcategory : List Char := "category".data

/-- Key `"call_id"`. -/
def kcall_id : List Char := "call_id".data

/-- Key `"function"`. -/
def kfunction : List Char := "function".data

/-- Key `"data"`. -/
def kdata : List Char := "data".data

/-- The pattern literal `value="` of `main.py` lines 115 and 263. -/
def patValue : List Char := "value=".data ++ [dqc]

/-- The pattern literal `id='` of line 128. -/
def patId : List Char := "id=".data ++ [sqc]

/-- The pattern literal `function='` of line 132. -/
def patFunction : List Char := "function=".data ++ [sqc]

/-- The pattern literal `name='` of line 243. -/
def patName : List Char := "name=".data ++ [sqc]

/-- The pattern literal `arguments='` of line 244. -/
def patArguments : List Char := "arguments=".data ++ [sqc]

/-- F-string interpolation of the optional captured group `call_id`
(`str(None) = "None"`, `str` of a string is itself). -/
def fstrOpt : Option (List Char) → List Char
  | Option.some s => s
  | Option.none => "None".data

/-- The Python value held by an optional captured group. -/
def optStrVal : Option (List Char) → PyVal
  | Option.some s => PyVal.str s
  | Option.none => PyVal.none

/-- Timestamp of a payload: `data.get('timestamp', datetime.now().isoformat())`
at line 99 of `main.py`; `now` is the clock reading passed explicitly. -/
def tsOf (now : List Char) (data : List (List Char × PyVal)) : PyVal :=
  (List.lookup ktimestamp data).getD (PyVal.str now)

/-- Nested data of a payload: `data.get('data', {})` at line 100. -/
def cdOf (data : List (List Char × PyVal)) : PyVal :=
  (List.lookup kdata data).getD (PyVal.dict [])

/-- Body of the `try` block of `parse_data` (lines 112-154 of `main.py`;
the `status` branch at lines 103-109 is commented out in the source).
Checks for a `messages` key, else a `tool_calls` key, else returns the
`unknown` entry; any exception raised by the Python operations is
propagated as `Except.error` to the handler in `parse_data`. -/
def parse_core (timestamp : PyVal) (content_data : PyVal) :
    Except PyErr (List (List Char × PyVal)) :=
  match pyContains "messages".data content_data with
  | .error e => .error e
  | .ok true =>
    match pyIndex content_data "messages".data with
    | .error e => .error e
    | .ok message =>
      match asStr message with
      | .error e => .error e
      | .ok m =>
        let text := (searchCapOpen patValue dqc m).getD m
        .ok [(ktype, mkStr "message"), (ktimestamp, timestamp),
             (kcontent, PyVal.str (pyStrip text)), (kcategory, mkStr "ai_response")]
  | .ok false =>
    match pyContains "tool_calls".data content_data with
    | .error e => .error e
    | .ok true =>
      match pyIndex content_data "tool_calls".data with
      | .error e => .error e
      | .ok tc =>
        match asStr tc with
        | .error e => .error e
        | .ok t =>
          let call_id := searchCapClosed patId sqc t
          let function_name := searchCapClosed patFunction sqc t
          let content := "Tool Call: ".data ++ fstrOpt call_id ++
            (match function_name with
             | Option.some f => if f.isEmpty then [] else " (Function: ".data ++ f ++ ")".data
             | Option.none => [])
          .ok [(ktype, mkStr "tool_call"), (ktimestamp, timestamp),
               (kcontent, PyVal.str content), (kcall_id, optStrVal call_id),
               (kfunction, optStrVal function_name), (kcategory, mkStr "system_action")]
    | .ok false =>
      .ok [(ktype, mkStr "unknown"), (ktimestamp, timestamp),
           (kcontent, PyVal.str (pyStr content_data)), (kcategory, mkStr "unknown")]

/-- Embedding of `parse_data` (lines 96-163 of `main.py`).  The payload is
a Python dict (its callers pass pydantic-validated `Dict[str, Any]` bodies
or Mongo documents); `now` is the `datetime.now().isoformat()` reading
used as the default timestamp.  The `except` handler at lines 156-163
converts any exception raised by the body into the `type="error"` entry. -/
def parse_data (now : List Char) (data : List (List Char × PyVal)) :
    List (List Char × PyVal) :=
  let timestamp := tsOf now data
  let content_data := cdOf data
  match parse_core timestamp content_data with
  | .ok r => r
  | .error e =>
    [(ktype, mkStr "error"), (ktimestamp, timestamp),
     (kcontent, PyVal.str ("Error parsing data: ".data ++ e.msg)),
     (kcategory, mkStr "error")]

/-- Key `"function_name"` of `parse_tool_call` results. -/
def kfunction_name : List Char := "function_name".data

/-- Key `"arguments"`. -/
def karguments : List Char := "arguments".data

/-- Key `"raw"`. -/
def kraw : List Char := "raw".data

/-- Key `"error"`. -/
def kerror : List Char := "error".data

/-- Key `"text"` of `parse_text_content` results. -/
def ktext : List Char := "text".data

/-- JSON whitespace skipped by `json.loads` (space, tab, newline, return). -/
def skipJsonWs : List Char → List Char
  | [] => []
  | c :: rest =>
    if c = ' ' || c = '\t' || c = '\n' || c = '\x0d' then skipJsonWs rest else c :: rest

/-- Value of a hexadecimal digit. -/
def hexDigitVal (c : Char) : Option Nat :=
  if '0' ≤ c ∧ c ≤ '9' then Option.some (c.toNat - '0'.toNat)
  else if 'a' ≤ c ∧ c ≤ 'f' then Option.some (c.toNat - 'a'.toNat + 10)
  else if 'A' ≤ c ∧ c ≤ 'F' then Option.some (c.toNat - 'A'.toNat + 10)
  else Option.none

/-- Single-character JSON escapes. -/
def jsonEscChar (e : Char) : Option Char :=
  if e = dqc then Option.some dqc
  else if e = '\\' then Option.some '\\'
  else if e = '/' then Option.some '/'
  else if e = 'b' then Option.some '\x08'
  else if e = 'f' then Option.some '\x0c'
  else if e = 'n' then Option.some '\n'
  else if e = 'r' then Option.some '\x0d'
  else if e = 't' then Option.some '\t'
  else Option.none

/-- JSON string body, after the opening quote: returns the decoded
characters and the remainder after the closing quote.  Raw control
characters are rejected (the strict mode of `json.loads`). -/
def jStr : List Char → Option (List Char × List Char)
  | [] => Option.none
  | c :: rest =>
    if c = dqc then Option.some ([], rest)
    else if c = '\\' then
      match rest with
      | [] => Option.none
      | e :: rest2 =>
        if e = 'u' then
          match rest2 with
          | a :: b :: c2 :: d :: rest3 =>
            match hexDigitVal a, hexDigitVal b, hexDigitVal c2, hexDigitVal d with
            | Option.some x1, Option.some x2, Option.some x3, Option.some x4 =>
              (jStr rest3).map (fun p => (Char.ofNat (((x1 * 16 + x2) * 16 + x3) * 16 + x4) :: p.1, p.2))
            | _, _, _, _ => Option.none
          | _ => Option.none
        else
          match jsonEscChar e with
          | Option.some r => (jStr rest2).map (fun p => (r :: p.1, p.2))
          | Option.none => Option.none
    else if c.toNat < 32 then Option.none
    else (jStr rest).map (fun p => (c :: p.1, p.2))

/-- Maximal run of decimal digits at the head of the list. -/
def digitRun : List Char → (List Char × List Char)
  | [] => ([], [])
  | c :: rest =>
    if c.isDigit then
      let (d, r) := digitRun rest
      (c :: d, r)
    else ([], c :: rest)

/-- Natural number denoted by a digit run. -/
def digitsToNat (l : List Char) : Nat :=
  l.foldl (fun acc c => acc * 10 + (c.toNat - '0'.toNat)) 0

/-- Optional fraction part `(\.\d+)?` of a JSON number: returns the
consumed characters (empty when the group does not match) and the rest. -/
def jFrac : List Char → (List Char × List Char)
  | '.' :: rest =>
    match rest with
    | c :: rest2 =>
      if c.isDigit then
        let (d, r) := digitRun rest2
        ('.' :: c :: d, r)
      else ([], '.' :: rest)
    | [] => ([], ['.'])
  | s => ([], s)

/-- Optional exponent part `([eE][-+]?\d+)?` of a JSON number. -/
def jExp : List Char → (List Char × List Char)
  | [] => ([], [])
  | e :: rest =>
    if e = 'e' ∨ e = 'E' then
      match rest with
      | [] => ([], [e])
      | c :: rest2 =>
        if c = '+' ∨ c = '-' then
          match rest2 with
          | [] => ([], e :: rest)
          | d :: rest3 =>
            if d.isDigit then
              let (ds, r) := digitRun rest3
              (e :: c :: d :: ds, r)
            else ([], e :: rest)
        else if c.isDigit then
          let (ds, r) := digitRun rest2
          (e :: c :: ds, r)
        else ([], e :: rest)
    else ([], e :: rest)

/-- Continuation of a JSON number after its integer digits: an integer
when no fraction or exponent follows, otherwise a float token. -/
def jNumAfterInt (neg : Bool) (intPart : List Char) (s : List Char) :
    Option (PyVal × List Char) :=
  let fr := jFrac s
  let ex := jExp fr.2
  if fr.1.isEmpty ∧ ex.1.isEmpty then
    Option.some
      (PyVal.int (if neg then -(Int.ofNat (digitsToNat intPart)) else Int.ofNat (digitsToNat intPart)), s)
  else
    Option.some (PyVal.float ((if neg then ['-'] else []) ++ intPart ++ fr.1 ++ ex.1), ex.2)

/-- JSON number (the scanner regex of the `json` module:
`-?(0|[1-9]\d*)(\.\d+)?([eE][-+]?\d+)?`; leading zeros stop the integer
part at the single `0`). -/
def jNum (s : List Char) : Option (PyVal × List Char) :=
  let p := match s with
    | c :: rest => if c = '-' then (true, rest) else (false, s)
    | [] => (false, s)
  match p.2 with
  | [] => Option.none
  | c :: rest =>
    if c = '0' then jNumAfterInt p.1 ['0'] rest
    else if c.isDigit then
      let (d, r) := digitRun rest
      jNumAfterInt p.1 (c :: d) r
    else Option.none

/-- Fixed literal tail (for `true`, `false`, `null`, `NaN`, `Infinity`). -/
def jLit (expected : List Char) (v : PyVal) (s : List Char) : Option (PyVal × List Char) :=
  if expected.isPrefixOf s then Option.some (v, s.drop expected.length) else Option.none

mutual

/-- One JSON value (fuel-indexed recursive descent for `json.loads`;
`json.loads` also accepts the non-standard `NaN`, `Infinity` and
`-Infinity` by default). -/
def jVal : Nat → List Char → Option (PyVal × List Char)
  | 0, _ => Option.none
  | Nat.succ fuel, s =>
    match skipJsonWs s with
    | [] => Option.none
    | c :: rest =>
      if c = dqc then (jStr rest).map (fun p => (PyVal.str p.1, p.2))
      else if c = lbrace then
        match skipJsonWs rest with
        | [] => Option.none
        | c2 :: r2 =>
          if c2 = rbrace then Option.some (PyVal.dict [], r2)
          else jObjMembers fuel (c2 :: r2)
      else if c = '[' then
        match skipJsonWs rest with
        | [] => Option.none
        | c2 :: r2 =>
          if c2 = ']' then Option.some (PyVal.list [], r2)
          else jArrItems fuel (c2 :: r2)
      else if c = 't' then jLit "rue".data (PyVal.bool true) rest
      else if c = 'f' then jLit "alse".data (PyVal.bool false) rest
      else if c = 'n' then jLit "ull".data PyVal.none rest
      else if c = 'N' then jLit "aN".data (PyVal.float "nan".data) rest
      else if c = 'I' then jLit "nfinity".data (PyVal.float "inf".data) rest
      else if c = '-' then
        match rest with
        | 'I' :: r2 => jLit "nfinity".data (PyVal.float "-inf".data) r2
        | _ => jNum (c :: rest)
      else if c.isDigit then jNum (c :: rest)
      else Option.none

/-- Members of a JSON object, positioned at the first key. -/
def jObjMembers : Nat → List Char → Option (PyVal × List Char)
  | 0, _ => Option.none
  | Nat.succ fuel, s =>
    match skipJsonWs s with
    | [] => Option.none
    | c :: rest =>
      if c = dqc then
        match jStr rest with
        | Option.some (key, r1) =>
          match skipJsonWs r1 with
          | ':' :: r2 =>
            match jVal fuel r2 with
            | Option.some (v, r3) =>
              match skipJsonWs r3 with
              | [] => Option.none
              | ',' :: r4 =>
                match jObjMembers fuel r4 with
                | Option.some (PyVal.dict d, r5) => Option.some (PyVal.dict ((key, v) :: d), r5)
                | _ => Option.none
              | c2 :: r4 => if c2 = rbrace then Option.some (PyVal.dict [(key, v)], r4) else Option.none
            | Option.none => Option.none
          | _ => Option.none
        | Option.none => Option.none
      else Option.none

/-- Items of a JSON array, positioned at the first item. -/
def jArrItems : Nat → List Char → Option (PyVal × List Char)
  | 0, _ => Option.none
  | Nat.succ fuel, s =>
    match jVal fuel s with
    | Option.some (v, r1) =>
      match skipJsonWs r1 with
      | [] => Option.none
      | ',' :: r2 =>
        match jArrItems fuel r2 with
        | Option.some (PyVal.list l, r3) => Option.some (PyVal.list (v :: l), r3)
        | _ => Option.none
      | c2 :: r2 => if c2 = ']' then Option.some (PyVal.list [v], r2) else Option.none
    | Option.none => Option.none

end

/-- Embedding of `json.loads`: a single JSON value covering the whole
input, up to surrounding whitespace.  (Duplicate object keys are kept in
order rather than last-wins; no parsed value with duplicate keys is ever
inspected by the code under verification.) -/
def jsonParse (s : List Char) : Option PyVal :=
  match jVal (2 * s.length + 8) s with
  | Option.some (v, rest) => if (skipJsonWs rest).isEmpty then Option.some v else Option.none
  | Option.none => Option.none

/-- Modelled text of the `json.JSONDecodeError` raised by `json.loads` on
invalid input (the exact positional message of CPython is abstracted; no
claim depends on the message text). -/
def jsonDecodeErrMsg : List Char := "Expecting value".data

/-- Embedding of `parse_tool_call` (lines 239-257 of `main.py`).  The
`name='…'` and `arguments='…'` captures fall back to `"unknown"` and `{}`;
a `json.loads` failure on captured arguments is caught by the `except`
handler, which returns only `type`, `error` and `raw`. -/
def parse_tool_call (data : List Char) : List (List Char × PyVal) :=
  let function_name := (searchCapClosed patName sqc data).getD "unknown".data
  match searchCapClosed patArguments sqc data with
  | Option.none =>
    [(ktype, mkStr "tool_call"), (kfunction_name, PyVal.str function_name),
     (karguments, PyVal.dict []), (kraw, PyVal.str data)]
  | Option.some cap =>
    match jsonParse cap with
    | Option.some args =>
      [(ktype, mkStr "tool_call"), (kfunction_name, PyVal.str function_name),
       (karguments, args), (kraw, PyVal.str data)]
    | Option.none =>
      [(ktype, mkStr "tool_call"), (kerror, PyVal.str jsonDecodeErrMsg), (kraw, PyVal.str data)]

/-- Embedding of `parse_text_content` (lines 259-273 of `main.py`).  Its
`try` body consists of one `re.search` on a string and a fallback, which
cannot raise, so the embedding is the success path. -/
def parse_text_content (data : List Char) : List (List Char × PyVal) :=
  let text_content := (searchCapOpen patValue dqc data).getD data
  [(ktype, mkStr "text_content"), (ktext, PyVal.str text_content), (kraw, PyVal.str data)]

/-- The fixed style/header part of the feed page: the triple-quoted
string assigned to `html_content` at lines 171-209 of `main.py` (with the
single splice needed to avoid apostrophes inside a Lean string literal). -/
def feedHeader : List Char :=
  "\n        <style>\n            .feed-container \x7b\n                font-family: ".data ++
  sqc :: "Courier New".data ++ sqc ::
  ", monospace;\n                padding: 20px;\n                background: #0a0a0a;\n                color: #33ff33;\n            \x7d\n            .entry \x7b\n                margin-bottom: 15px;\n                padding: 10px;\n                border-left: 3px solid #33ff33;\n                background: rgba(0, 255, 0, 0.05);\n            \x7d\n            .timestamp \x7b\n                color: #666;\n                font-size: 0.8em;\n            \x7d\n            .content \x7b\n                margin-top: 5px;\n            \x7d\n            .system_action \x7b\n                color: #00ffff;\n                border-left-color: #00ffff;\n            \x7d\n            .system_status \x7b\n                color: #ff9900;\n                border-left-color: #ff9900;\n            \x7d\n            .error \x7b\n                color: #ff3333;\n                border-left-color: #ff3333;\n            \x7d\n            .prefix \x7b\n                opacity: 0.7;\n            \x7d\n        </style>\n        <div class=\"feed-container\">\n        ".data

/-- Display prefix chosen from the parsed category (the dict literal
`.get(category_class, '-- LOG:')` at lines 215-221): a non-string value
never equals any of the string keys, so it falls to the default. -/
def pfxFor : PyVal → List Char
  | .str c =>
    if c = "ai_response".data then ">> AI:".data
    else if c = "system_action".data then "## SYS:".data
    else if c = "system_status".data then "!! STATUS:".data
    else if c = "error".data then "** ERROR:".data
    else if c = "unknown".data then "?? LOG:".data
    else "-- LOG:".data
  | _ => "-- LOG:".data

/-- The per-entry f-string of lines 223-230, as a function of the four
interpolated strings. -/
def entryTemplate (cc tsS pfx ctS : List Char) : List Char :=
  "\n            <div class=\"entry ".data ++ cc ++
  " log-entry\">\n                <div class=\"timestamp\">[".data ++ tsS ++
  "]</div>\n                <div class=\"content\">\n                    <span class=\"prefix\">".data ++
  pfx ++ "</span> ".data ++ ctS ++
  "\n                </div>\n            </div>\n            ".data

/-- One iteration of the feed loop (lines 211-230): classify the entry,
read `parsed.get('category', 'unknown')`, then index `parsed['timestamp']`
and `parsed['content']` — either indexing would raise a `KeyError` past
the loop, into the whole-feed handler. -/
def entryBlock (now : List Char) (entry : List (List Char × PyVal)) :
    Except PyErr (List Char) :=
  let parsed := parse_data now entry
  let category_class := (List.lookup kcategory parsed).getD (mkStr "unknown")
  match List.lookup ktimestamp parsed with
  | Option.none => .error ⟨sqc :: (ktimestamp ++ [sqc])⟩
  | Option.some ts =>
    match List.lookup kcontent parsed with
    | Option.none => .error ⟨sqc :: (kcontent ++ [sqc])⟩
    | Option.some ct =>
      .ok (entryTemplate (pyStr category_class) (pyStr ts) (pfxFor category_class) (pyStr ct))

/-- The feed loop over all fetched entries, concatenating the blocks and
propagating the first exception, as the single `try` of `get_feed` does. -/
def renderLoop (now : List Char) : List (List (List Char × PyVal)) → Except PyErr (List Char)
  | [] => .ok []
  | e :: rest =>
    match entryBlock now e with
    | .error err => .error err
    | .ok b =>
      match renderLoop now rest with
      | .error err => .error err
      | .ok bs => .ok (b ++ bs)

/-- Embedding of `get_feed` (lines 165-237 of `main.py`) applied to the
entries fetched from storage: header plus one block per entry plus the
closing tag; were any exception raised inside the `try`, the single
handler at lines 235-237 would replace the whole feed with an error div. -/
def get_feed (now : List Char) (entries : List (List (List Char × PyVal))) : List Char :=
  match renderLoop now entries with
  | .ok blocks => feedHeader ++ blocks ++ "</div>".data
  | .error e => "<div>Error loading feed: ".data ++ e.msg ++ "</div>".data

/-- The always-successful value of `entryBlock` (the four keys read by the
loop are present in every `parse_data` result, as proved below). -/
def entryHtml (now : List Char) (entry : List (List Char × PyVal)) : List Char :=
  let parsed := parse_data now entry
  let category_class := (List.lookup kcategory parsed).getD (mkStr "unknown")
  entryTemplate (pyStr category_class)
    (pyStr ((List.lookup ktimestamp parsed).getD PyVal.none))
    (pfxFor category_class)
    (pyStr ((List.lookup kcontent parsed).getD PyVal.none))

/-- Concatenation of the blocks of a list of entries. -/
def joinBlocks (now : List Char) : List (List (List Char × PyVal)) → List Char
  | [] => []
  | e :: rest => entryHtml now e ++ joinBlocks now rest

/-- Exhaustive description of the outcomes of the `try` body of
`parse_data`: an exception, or one of the three success entries. -/
lemma parse_core_cases (ts cd : PyVal) :
    (∃ e, parse_core ts cd = .error e) ∨
    (∃ m, parse_core ts cd =
      .ok [(ktype, mkStr "message"), (ktimestamp, ts),
           (kcontent, PyVal.str m), (kcategory, mkStr "ai_response")]) ∨
    (∃ ci fn ct, parse_core ts cd =
      .ok [(ktype, mkStr "tool_call"), (ktimestamp, ts), (kcontent, PyVal.str ct),
           (kcall_id, ci), (kfunction, fn), (kcategory, mkStr "system_action")]) ∨
    (parse_core ts cd =
      .ok [(ktype, mkStr "unknown"), (ktimestamp, ts),
           (kcontent, PyVal.str (pyStr cd)), (kcategory, mkStr "unknown")]) := by
  rcases h1 : pyContains "messages".data cd with e | b
  · exact Or.inl ⟨e, by simp [parse_core, h1]⟩
  · cases b
    · rcases h2 : pyContains "tool_calls".data cd with e | b2
      · exact Or.inl ⟨e, by simp [parse_core, h1, h2]⟩
      · cases b2
        · exact Or.inr (Or.inr (Or.inr (by simp [parse_core, h1, h2])))
        · rcases h3 : pyIndex cd "tool_calls".data with e | tc
          · exact Or.inl ⟨e, by simp [parse_core, h1, h2, h3]⟩
          · rcases h4 : asStr tc with e | t
            · exact Or.inl ⟨e, by simp [parse_core, h1, h2, h3, h4]⟩
            · refine Or.inr (Or.inr (Or.inl ⟨optStrVal (searchCapClosed patId sqc t),
                optStrVal (searchCapClosed patFunction sqc t),
                "Tool Call: ".data ++ fstrOpt (searchCapClosed patId sqc t) ++
                  (match searchCapClosed patFunction sqc t with
                   | Option.some f => if f.isEmpty then [] else " (Function: ".data ++ f ++ ")".data
                   | Option.none => []), ?_⟩))
              simp [parse_core, h1, h2, h3, h4]
    · rcases h2 : pyIndex cd "messages".data with e | msg
      · exact Or.inl ⟨e, by simp [parse_core, h1, h2]⟩
      · rcases h3 : asStr msg with e | m
        · exact Or.inl ⟨e, by simp [parse_core, h1, h2, h3]⟩
        · exact Or.inr (Or.inl ⟨pyStrip ((searchCapOpen patValue dqc m).getD m),
            by simp [parse_core, h1, h2, h3]⟩)

/-- C9: for every dict payload, the classifier's returned mapping contains
all four keys `type`, `timestamp`, `content` and `category`, in every
branch including the unknown and error branches — the invariant the feed
renderer relies on when it indexes `parsed['timestamp']` and
`parsed['content']` without guards. -/
theorem parse_data_result_has_four_keys (now : List Char) (data : List (List Char × PyVal)) :
    ∃ a b c d,
      List.lookup ktype (parse_data now data) = Option.some a ∧
      List.lookup ktimestamp (parse_data now data) = Option.some b ∧
      List.lookup kcontent (parse_data now data) = Option.some c ∧
      List.lookup kcategory (parse_data now data) = Option.some d := by
  rcases parse_core_cases (tsOf now data) (cdOf data) with ⟨e, h⟩ | ⟨m, h⟩ | ⟨ci, fn, ct, h⟩ | h
  · have hR : parse_data now data =
        [(ktype, mkStr "error"), (ktimestamp, tsOf now data),
         (kcontent, PyVal.str ("Error parsing data: ".data ++ e.msg)),
         (kcategory, mkStr "error")] := by
      simp [parse_data, h]
    rw [hR]; exact ⟨_, _, _, _, rfl, rfl, rfl, rfl⟩
  · have hR : parse_data now data =
        [(ktype, mkStr "message"), (ktimestamp, tsOf now data),
         (kcontent, PyVal.str m), (kcategory, mkStr "ai_response")] := by
      simp [parse_data, h]
    rw [hR]; exact ⟨_, _, _, _, rfl, rfl, rfl, rfl⟩
  · have hR : parse_data now data =
        [(ktype, mkStr "tool_call"), (ktimestamp, tsOf now data), (kcontent, PyVal.str ct),
         (kcall_id, ci), (kfunction, fn), (kcategory, mkStr "system_action")] := by
      simp [parse_data, h]
    rw [hR]; exact ⟨_, _, _, _, rfl, rfl, rfl, rfl⟩
  · have hR : parse_data now data =
        [(ktype, mkStr "unknown"), (ktimestamp, tsOf now data),
         (kcontent, PyVal.str (pyStr (cdOf data))), (kcategory, mkStr "unknown")] := by
      simp [parse_data, h]
    rw [hR]; exact ⟨_, _, _, _, rfl, rfl, rfl, rfl⟩

/-- C1: for every payload given to the classifier, the call never raises
past its boundary: the embedding is a total function, every internal
failure of the body is converted into an entry with `type="error"` whose
content carries the error message, and every non-failing run yields one of
the three proper entry types (never `error`). -/
theorem parse_data_never_raises (now : List Char) (data : List (List Char × PyVal)) :
    (∃ e, parse_core (tsOf now data) (cdOf data) = .error e ∧
      parse_data now data =
        [(ktype, mkStr "error"), (ktimestamp, tsOf now data),
         (kcontent, PyVal.str ("Error parsing data: ".data ++ e.msg)),
         (kcategory, mkStr "error")]) ∨
    (∃ r, parse_core (tsOf now data) (cdOf data) = .ok r ∧
      parse_data now data = r ∧
      (List.lookup ktype r = Option.some (mkStr "message") ∨
       List.lookup ktype r = Option.some (mkStr "tool_call") ∨
       List.lookup ktype r = Option.some (mkStr "unknown"))) := by
  rcases parse_core_cases (tsOf now data) (cdOf data) with ⟨e, h⟩ | ⟨m, h⟩ | ⟨ci, fn, ct, h⟩ | h
  · exact Or.inl ⟨e, h, by simp [parse_data, h]⟩
  · exact Or.inr ⟨_, h, by simp [parse_data, h], Or.inl rfl⟩
  · exact Or.inr ⟨_, h, by simp [parse_data, h], Or.inr (Or.inl rfl)⟩
  · exact Or.inr ⟨_, h, by simp [parse_data, h], Or.inr (Or.inr rfl)⟩

/-- The two indexings of the feed loop never raise: `entryBlock` always
succeeds with the value `entryHtml`. -/
lemma entryBlock_ok (now : List Char) (e : List (List Char × PyVal)) :
    entryBlock now e = .ok (entryHtml now e) := by
  rcases parse_core_cases (tsOf now e) (cdOf e) with ⟨err, h⟩ | ⟨m, h⟩ | ⟨ci, fn, ct, h⟩ | h
  · have hR : parse_data now e =
        [(ktype, mkStr "error"), (ktimestamp, tsOf now e),
         (kcontent, PyVal.str ("Error parsing data: ".data ++ err.msg)),
         (kcategory, mkStr "error")] := by simp [parse_data, h]
    simp only [entryBlock, entryHtml, hR]
    rfl
  · have hR : parse_data now e =
        [(ktype, mkStr "message"), (ktimestamp, tsOf now e),
         (kcontent, PyVal.str m), (kcategory, mkStr "ai_response")] := by simp [parse_data, h]
    simp only [entryBlock, entryHtml, hR]
    rfl
  · have hR : parse_data now e =
        [(ktype, mkStr "tool_call"), (ktimestamp, tsOf now e), (kcontent, PyVal.str ct),
         (kcall_id, ci), (kfunction, fn), (kcategory, mkStr "system_action")] := by
      simp [parse_data, h]
    simp only [entryBlock, entryHtml, hR]
    rfl
  · have hR : parse_data now e =
        [(ktype, mkStr "unknown"), (ktimestamp, tsOf now e),
         (kcontent, PyVal.str (pyStr (cdOf e))), (kcategory, mkStr "unknown")] := by
      simp [parse_data, h]
    simp only [entryBlock, entryHtml, hR]
    rfl

/-- The feed loop never raises and concatenates the per-entry blocks. -/
lemma renderLoop_ok (now : List Char) (entries : List (List (List Char × PyVal))) :
    renderLoop now entries = .ok (joinBlocks now entries) := by
  induction entries with
  | nil => rfl
  | cons e rest ih => simp [renderLoop, joinBlocks, entryBlock_ok, ih]

/-- Block concatenation splits around a distinguished entry. -/
lemma joinBlocks_append (now : List Char) (pre : List (List (List Char × PyVal)))
    (x : List (List Char × PyVal)) (post : List (List (List Char × PyVal))) :
    joinBlocks now (pre ++ x :: post) =
      joinBlocks now pre ++ (entryHtml now x ++ joinBlocks now post) := by
  induction pre with
  | nil => simp [joinBlocks]
  | cons e rest ih => simp [joinBlocks, ih]

/-- C2: for every sequence of stored records, the feed is produced whole —
header, one block per record, closing tag — so a record whose
classification or formatting fails contributes only its own block and the
remaining records are still rendered; and a record classified into the
`error` category is replaced by the inline error block (the entry template
with CSS class `error` and the `** ERROR:` prefix). -/
theorem get_feed_isolates_per_record :
    (∀ now pre x post,
      get_feed now (pre ++ x :: post) =
        feedHeader ++ (joinBlocks now pre ++ (entryHtml now x ++
          (joinBlocks now post ++ "</div>".data)))) ∧
    (∀ now x, List.lookup kcategory (parse_data now x) = Option.some (mkStr "error") →
      entryHtml now x = entryTemplate "error".data
        (pyStr ((List.lookup ktimestamp (parse_data now x)).getD PyVal.none))
        ("** ERROR:".data)
        (pyStr ((List.lookup kcontent (parse_data now x)).getD PyVal.none))) := by
  constructor
  · intro now pre x post
    simp [get_feed, renderLoop_ok, joinBlocks_append]
  · intro now x h
    simp only [entryHtml, h]
    rfl

/-- Witness for C2 at a concrete feed: a middle record whose
classification raises (its `data` field is an int, so `in` raises a
`TypeError`) is rendered as its own inline error block while the records
around it are rendered normally. -/
theorem get_feed_isolates_per_record_witness :
    (get_feed "T".data
        ([[(kdata, PyVal.dict [])]] ++ [(kdata, PyVal.int 0)] :: [[(kdata, PyVal.dict [])]]) =
      feedHeader ++ (joinBlocks "T".data [[(kdata, PyVal.dict [])]] ++
        (entryHtml "T".data [(kdata, PyVal.int 0)] ++
          (joinBlocks "T".data [[(kdata, PyVal.dict [])]] ++ "</div>".data)))) ∧
    (entryHtml "T".data [(kdata, PyVal.int 0)] = entryTemplate "error".data
      (pyStr ((List.lookup ktimestamp (parse_data "T".data [(kdata, PyVal.int 0)])).getD PyVal.none))
      ("** ERROR:".data)
      (pyStr ((List.lookup kcontent (parse_data "T".data [(kdata, PyVal.int 0)])).getD PyVal.none))) :=
  ⟨get_feed_isolates_per_record.1 "T".data [[(kdata, PyVal.dict [])]] [(kdata, PyVal.int 0)]
      [[(kdata, PyVal.dict [])]],
   get_feed_isolates_per_record.2 "T".data [(kdata, PyVal.int 0)] rfl⟩

/-- Counterexample to C3 at the concrete input `arguments='{not valid json}'`:
the returned entry carries no `arguments` key at all (so `arguments` is not
the empty mapping), even though the `error` field is present as claimed. -/
theorem parse_tool_call_bad_json_counterexample :
    List.lookup karguments
      (parse_tool_call ("arguments=".data ++ sqc :: ("\x7bnot valid json\x7d".data ++ [sqc]))) =
      Option.none ∧
    List.lookup kerror
      (parse_tool_call ("arguments=".data ++ sqc :: ("\x7bnot valid json\x7d".data ++ [sqc]))) =
      Option.some (PyVal.str jsonDecodeErrMsg) :=
  ⟨rfl, rfl⟩

/-- C3 (amended): for every input string containing an `arguments='…'`
segment whose captured content is not valid JSON, `parse_tool_call`
returns — without raising — an entry with `type="tool_call"`, an `error`
field, and `raw` equal to the original string, and with NO `arguments`
key (the `except` handler drops it rather than substituting the empty
mapping). -/
theorem parse_tool_call_bad_json_error_entry (s cap : List Char)
    (h1 : searchCapClosed patArguments sqc s = Option.some cap)
    (h2 : jsonParse cap = Option.none) :
    parse_tool_call s =
      [(ktype, mkStr "tool_call"), (kerror, PyVal.str jsonDecodeErrMsg), (kraw, PyVal.str s)] := by
  simp [parse_tool_call, h1, h2]

/-- Witness for C3 (amended) at the same concrete malformed input. -/
theorem parse_tool_call_bad_json_error_entry_witness :
    parse_tool_call ("arguments=".data ++ sqc :: ("\x7bnot valid json\x7d".data ++ [sqc])) =
      [(ktype, mkStr "tool_call"), (kerror, PyVal.str jsonDecodeErrMsg),
       (kraw, PyVal.str ("arguments=".data ++ sqc :: ("\x7bnot valid json\x7d".data ++ [sqc])))] :=
  parse_tool_call_bad_json_error_entry
    ("arguments=".data ++ sqc :: ("\x7bnot valid json\x7d".data ++ [sqc]))
    ("\x7bnot valid json\x7d".data) rfl rfl

/-- Counterexample to C4 at two concrete inputs: in Strategy A the
`tool_calls` branch with no `id='…'` match composes `"Tool Call: None"`,
which is not the unmodified source string `"no quoted id"`; and the
`messages` branch with no `value="` match returns the source string
stripped, `"hi"`, not the unmodified `" hi "`. -/
theorem extraction_fallback_counterexample :
    (List.lookup kcontent
        (parse_data "T".data [(kdata, PyVal.dict [("tool_calls".data, mkStr "no quoted id")])]) =
        Option.some (mkStr "Tool Call: None") ∧
      "Tool Call: None".data ≠ "no quoted id".data) ∧
    (List.lookup kcontent
        (parse_data "T".data [(kdata, PyVal.dict [("messages".data, mkStr " hi ")])]) =
        Option.some (mkStr "hi") ∧
      "hi".data ≠ " hi ".data) :=
  ⟨⟨rfl, by decide⟩, ⟨rfl, by decide⟩⟩

/-- C4 (amended): when a quoted-substring extraction pattern finds no
match, the extractors fall back without throwing, as follows.  In Strategy
A, the `messages` branch falls back to the source string stripped of
surrounding whitespace, and the `tool_calls` branch falls back to a `None`
capture, composing content `"Tool Call: None"`.  In Strategy B,
`parse_tool_call` falls back to the sentinel `"unknown"` for the name and
to an empty mapping for the arguments, and `parse_text_content` falls back
to the unmodified source string. -/
theorem extraction_fallbacks :
    (∀ now p d m, List.lookup kdata p = Option.some (PyVal.dict d) →
      List.lookup "messages".data d = Option.some (PyVal.str m) →
      searchCapOpen patValue dqc m = Option.none →
      List.lookup kcontent (parse_data now p) = Option.some (PyVal.str (pyStrip m))) ∧
    (∀ now p d s, List.lookup kdata p = Option.some (PyVal.dict d) →
      List.lookup "messages".data d = Option.none →
      List.lookup "tool_calls".data d = Option.some (PyVal.str s) →
      searchCapClosed patId sqc s = Option.none →
      searchCapClosed patFunction sqc s = Option.none →
      List.lookup kcontent (parse_data now p) = Option.some (mkStr "Tool Call: None") ∧
      List.lookup kcall_id (parse_data now p) = Option.some PyVal.none) ∧
    (∀ s, searchCapClosed patName sqc s = Option.none →
      searchCapClosed patArguments sqc s = Option.none →
      parse_tool_call s =
        [(ktype, mkStr "tool_call"), (kfunction_name, mkStr "unknown"),
         (karguments, PyVal.dict []), (kraw, PyVal.str s)]) ∧
    (∀ s, searchCapOpen patValue dqc s = Option.none →
      parse_text_content s =
        [(ktype, mkStr "text_content"), (ktext, PyVal.str s), (kraw, PyVal.str s)]) := by
  refine ⟨?_, ?_, ?_, ?_⟩
  · intro now p d m h1 h2 h3
    have hcd : cdOf p = PyVal.dict d := by simp [cdOf, h1]
    have hR : parse_data now p =
        [(ktype, mkStr "message"), (ktimestamp, tsOf now p),
         (kcontent, PyVal.str (pyStrip m)), (kcategory, mkStr "ai_response")] := by
      simp [parse_data, parse_core, hcd, pyContains, pyIndex, asStr, h2, h3]
    rw [hR]; rfl
  · intro now p d s h1 h2 h3 h4 h5
    have hcd : cdOf p = PyVal.dict d := by simp [cdOf, h1]
    have hR : parse_data now p =
        [(ktype, mkStr "tool_call"), (ktimestamp, tsOf now p),
         (kcontent, mkStr "Tool Call: None"), (kcall_id, PyVal.none),
         (kfunction, PyVal.none), (kcategory, mkStr "system_action")] := by
      simp [parse_data, parse_core, hcd, pyContains, pyIndex, asStr, h2, h3, h4, h5,
        fstrOpt, optStrVal, mkStr]
    rw [hR]; exact ⟨rfl, rfl⟩
  · intro s h1 h2
    simp [parse_tool_call, h1, h2, mkStr]
  · intro s h1
    simp [parse_text_content, h1]

/-- Witness for C4 (amended) at concrete inputs exercising all four
fallbacks. -/
theorem extraction_fallbacks_witness :
    (List.lookup kcontent
        (parse_data "T".data [(kdata, PyVal.dict [("messages".data, mkStr " raw text ")])]) =
      Option.some (PyVal.str (pyStrip " raw text ".data))) ∧
    (List.lookup kcontent
        (parse_data "T".data [(kdata, PyVal.dict [("tool_calls".data, mkStr "bare")])]) =
        Option.some (mkStr "Tool Call: None") ∧
      List.lookup kcall_id
        (parse_data "T".data [(kdata, PyVal.dict [("tool_calls".data, mkStr "bare")])]) =
        Option.some PyVal.none) ∧
    (parse_tool_call "plain".data =
      [(ktype, mkStr "tool_call"), (kfunction_name, mkStr "unknown"),
       (karguments, PyVal.dict []), (kraw, mkStr "plain")]) ∧
    (parse_text_content "plain".data =
      [(ktype, mkStr "text_content"), (ktext, mkStr "plain"), (kraw, mkStr "plain")]) :=
  ⟨extraction_fallbacks.1 "T".data _ _ " raw text ".data rfl rfl rfl,
   extraction_fallbacks.2.1 "T".data _ _ "bare".data rfl rfl rfl rfl rfl,
   extraction_fallbacks.2.2.1 "plain".data rfl rfl,
   extraction_fallbacks.2.2.2 "plain".data rfl⟩

/-- C5: for every payload whose nested `data` field contains a `messages`
key holding a string with an embedded `value="X` pattern, classifying it
yields content `X` stripped of surrounding whitespace, category
`ai_response`, and type `message`. -/
theorem parse_data_messages_value (now : List Char) (p : List (List Char × PyVal))
    (d : List (List Char × PyVal)) (m x : List Char)
    (h1 : List.lookup kdata p = Option.some (PyVal.dict d))
    (h2 : List.lookup "messages".data d = Option.some (PyVal.str m))
    (h3 : searchCapOpen patValue dqc m = Option.some x) :
    parse_data now p =
      [(ktype, mkStr "message"), (ktimestamp, tsOf now p),
       (kcontent, PyVal.str (pyStrip x)), (kcategory, mkStr "ai_response")] := by
  have hcd : cdOf p = PyVal.dict d := by simp [cdOf, h1]
  simp [parse_data, parse_core, hcd, pyContains, pyIndex, asStr, h2, h3]

/-- Witness for C5 at a concrete payload whose messages string embeds
`value=" Hello "`. -/
theorem parse_data_messages_value_witness :
    parse_data "T".data
        [(kdata, PyVal.dict [("messages".data,
           PyVal.str ("noise value=".data ++ dqc :: (" Hello ".data ++ dqc :: " tail".data)))])] =
      [(ktype, mkStr "message"),
       (ktimestamp, tsOf "T".data
         [(kdata, PyVal.dict [("messages".data,
            PyVal.str ("noise value=".data ++ dqc :: (" Hello ".data ++ dqc :: " tail".data)))])]),
       (kcontent, PyVal.str (pyStrip " Hello ".data)), (kcategory, mkStr "ai_response")] :=
  parse_data_messages_value "T".data _ _
    ("noise value=".data ++ dqc :: (" Hello ".data ++ dqc :: " tail".data))
    (" Hello ".data) rfl rfl rfl

/-- C6: for every payload whose nested `data` field contains a
`tool_calls` key (and no `messages` key) holding a string with an embedded
`id='…'` pattern and no `function='…'` pattern, classifying it yields
content exactly `"Tool Call: "` followed by the captured id, type
`tool_call`, and category `system_action`. -/
theorem parse_data_tool_call_id (now : List Char) (p : List (List Char × PyVal))
    (d : List (List Char × PyVal)) (s i : List Char)
    (h1 : List.lookup kdata p = Option.some (PyVal.dict d))
    (h2 : List.lookup "messages".data d = Option.none)
    (h3 : List.lookup "tool_calls".data d = Option.some (PyVal.str s))
    (h4 : searchCapClosed patId sqc s = Option.some i)
    (h5 : searchCapClosed patFunction sqc s = Option.none) :
    parse_data now p =
      [(ktype, mkStr "tool_call"), (ktimestamp, tsOf now p),
       (kcontent, PyVal.str ("Tool Call: ".data ++ i)), (kcall_id, PyVal.str i),
       (kfunction, PyVal.none), (kcategory, mkStr "system_action")] := by
  have hcd : cdOf p = PyVal.dict d := by simp [cdOf, h1]
  simp [parse_data, parse_core, hcd, pyContains, pyIndex, asStr, h2, h3, h4, h5,
    fstrOpt, optStrVal]

/-- Witness for C6 at a concrete payload with `id='ABC'`. -/
theorem parse_data_tool_call_id_witness :
    parse_data "T".data
        [(kdata, PyVal.dict [("tool_calls".data,
           PyVal.str ("call id=".data ++ sqc :: ("ABC".data ++ sqc :: " end".data)))])] =
      [(ktype, mkStr "tool_call"),
       (ktimestamp, tsOf "T".data
         [(kdata, PyVal.dict [("tool_calls".data,
            PyVal.str ("call id=".data ++ sqc :: ("ABC".data ++ sqc :: " end".data)))])]),
       (kcontent, PyVal.str ("Tool Call: ".data ++ "ABC".data)), (kcall_id, mkStr "ABC"),
       (kfunction, PyVal.none), (kcategory, mkStr "system_action")] :=
  parse_data_tool_call_id "T".data _ _
    ("call id=".data ++ sqc :: ("ABC".data ++ sqc :: " end".data)) "ABC".data
    rfl rfl rfl rfl rfl

/-- C7: for every payload whose nested `data` field contains neither a
`messages` key nor a `tool_calls` key, classifying it yields type
`unknown` and category `unknown` with content equal to the string form of
the nested data field, and (the embedding being total) the call does not
raise. -/
theorem parse_data_unknown (now : List Char) (p : List (List Char × PyVal))
    (d : List (List Char × PyVal))
    (h1 : List.lookup kdata p = Option.some (PyVal.dict d))
    (h2 : List.lookup "messages".data d = Option.none)
    (h3 : List.lookup "tool_calls".data d = Option.none) :
    parse_data now p =
      [(ktype, mkStr "unknown"), (ktimestamp, tsOf now p),
       (kcontent, PyVal.str (pyStr (PyVal.dict d))), (kcategory, mkStr "unknown")] := by
  have hcd : cdOf p = PyVal.dict d := by simp [cdOf, h1]
  simp [parse_data, parse_core, hcd, pyContains, h2, h3]

/-- Witness for C7 at a concrete payload whose nested data has only an
unrelated key. -/
theorem parse_data_unknown_witness :
    parse_data "T".data [(kdata, PyVal.dict [("other".data, PyVal.int 3)])] =
      [(ktype, mkStr "unknown"),
       (ktimestamp, tsOf "T".data [(kdata, PyVal.dict [("other".data, PyVal.int 3)])]),
       (kcontent, PyVal.str (pyStr (PyVal.dict [("other".data, PyVal.int 3)]))),
       (kcategory, mkStr "unknown")] :=
  parse_data_unknown "T".data _ _ rfl rfl rfl

/-- Counterexample to C8 at the concrete payload `{'data': 0}`, which
lacks a `timestamp` key: two invocations of the classifier at different
clock readings return different results (the default timestamp is
`datetime.now().isoformat()`), so there IS a hidden clock dependency. -/
theorem parse_data_clock_dependence_counterexample :
    parse_data "t1".data [(kdata, PyVal.int 0)] ≠ parse_data "t2".data [(kdata, PyVal.int 0)] := by
  intro h
  have h2 : Option.some (mkStr "t1") = Option.some (mkStr "t2") :=
    congrArg (List.lookup ktimestamp) h
  have h3 : mkStr "t1" = mkStr "t2" := Option.some.inj h2
  have h4 : "t1".data = "t2".data := PyVal.str.inj h3
  exact absurd h4 (by decide)

/-- C8 (amended): for every fixed payload that carries its own
`timestamp` key, two invocations of the classifier return equal results —
the clock reading used for the default timestamp does not influence the
result; when the `timestamp` key is absent, the result's timestamp field
is the invocation-time clock reading and the results may differ. -/
theorem parse_data_clock_free_with_timestamp (now1 now2 : List Char)
    (p : List (List Char × PyVal)) (t : PyVal)
    (h : List.lookup ktimestamp p = Option.some t) :
    parse_data now1 p = parse_data now2 p := by
  have h1 : tsOf now1 p = tsOf now2 p := by simp [tsOf, h]
  simp only [parse_data, h1]

/-- Witness for C8 (amended) at a concrete timestamped payload and two
distinct clock readings. -/
theorem parse_data_clock_free_with_timestamp_witness :
    parse_data "t1".data [(ktimestamp, mkStr "2024-01-01"), (kdata, PyVal.dict [])] =
      parse_data "t2".data [(ktimestamp, mkStr "2024-01-01"), (kdata, PyVal.dict [])] :=
  parse_data_clock_free_with_timestamp "t1".data "t2".data _ (mkStr "2024-01-01") rfl

/-- C10: classification depends only on the `timestamp` and `data`
entries of the payload — any two dict payloads that both contain a
`timestamp` key and agree on the values of their `timestamp` and `data`
entries are classified identically (at any clock readings), regardless of
any other top-level keys. -/
theorem parse_data_depends_only_on_timestamp_and_data (now1 now2 : List Char)
    (p1 p2 : List (List Char × PyVal)) (t : PyVal)
    (h1 : List.lookup ktimestamp p1 = Option.some t)
    (h2 : List.lookup ktimestamp p2 = Option.some t)
    (h3 : List.lookup kdata p1 = List.lookup kdata p2) :
    parse_data now1 p1 = parse_data now2 p2 := by
  have ht : tsOf now1 p1 = tsOf now2 p2 := by simp [tsOf, h1, h2]
  have hc : cdOf p1 = cdOf p2 := by simp [cdOf, h3]
  simp only [parse_data, ht, hc]

/-- Witness for C10: two payloads with the same `timestamp` and `data`
values but different extra keys and orders classify identically. -/
theorem parse_data_depends_only_on_timestamp_and_data_witness :
    parse_data "t1".data
        [(ktimestamp, mkStr "TS"), (kdata, PyVal.dict []), ("extra".data, PyVal.int 7)] =
      parse_data "t2".data [(kdata, PyVal.dict []), (ktimestamp, mkStr "TS")] :=
  parse_data_depends_only_on_timestamp_and_data "t1".data "t2".data _ _ (mkStr "TS")
    rfl rfl rfl
